import Mathlib

/-!
Verification of the concurrent bulk-upload pipeline in
`scripts/parallel_upload_to_orion.py`.

The Python script is shallowly embedded below.  The remote sink's behaviour
on each attempt of a task is modelled as a function `Nat → HttpResult`
giving the response to the request issued on that attempt; file loading is
modelled as an `Option PyJson` (`none` = the `open`/`json.load` call raised,
`some v` = the parsed value).  Python truthiness of parsed JSON values is
modelled by `PyJson.truthy` (JSON numbers are modelled as integers).
Floating-point wall-clock arithmetic in the final summary is modelled over
`ℚ`; Python's raising `/` on a zero divisor is embedded as `Except`.
-/

/-- A parsed JSON value as produced by Python's `json.load`. -/
inductive PyJson where
  | null : PyJson
  | bool (b : Bool) : PyJson
  | int (n : Int) : PyJson
  | str (s : String) : PyJson
  | arr (elems : List PyJson) : PyJson
  | obj (fields : List (String × PyJson)) : PyJson

/-- Python truthiness (`bool(v)`) of a parsed JSON value: `None`, `False`,
`0`, `""`, `[]` and `{}` are falsy, everything else truthy. -/
def PyJson.truthy : PyJson → Bool
  | .null => false
  | .bool b => b
  | .int n => n != 0
  | .str s => s != ""
  | .arr elems => !elems.isEmpty
  | .obj fields => !fields.isEmpty

/-- Outcome of one `urllib.request.urlopen` call inside `upload_entity`:
the call returns a response with some status (`ok`), raises
`urllib.error.HTTPError` with a code, a reason and an optional readable
error body (`httpError`), or raises some other exception such as a
connection error (`exn`). -/
inductive HttpResult where
  | ok (status : Nat) : HttpResult
  | httpError (code : Nat) (reason : String) (body : Option String) : HttpResult
  | exn (msg : String) : HttpResult
deriving DecidableEq

/-- The `(success, message)` part of `upload_entity`'s return value
(the file path component is carried separately as the entity id). -/
structure UploadResult where
  success : Bool
  message : String
deriving DecidableEq

/-- `MAX_RETRIES = 2` from the script's configuration block. -/
def MAX_RETRIES : Nat := 2

/-- The failure message built in the `HTTPError` else-branch of
`upload_entity` (lines 110-114): with a readable error body the message
carries a `Details:` suffix, otherwise just code and reason. -/
def httpErrorMsg (code : Nat) (reason : String) (body : Option String) : String :=
  match body with
  | some b => "HTTP error: " ++ toString code ++ " - " ++ reason ++ ", Details: " ++ b
  | none => "HTTP error: " ++ toString code ++ " - " ++ reason

/-- The `for attempt in range(retries)` loop of `upload_entity`, modelled as
structural recursion over the list of remaining attempt indices
(`List.range retries` at the initial call, i.e. `0, 1, …, retries-1` exactly
as Python's `range`).  Returns the `(success, message)` result together with
the number of HTTP create-requests issued by the remaining attempts.
Exhausting the list falls out of the loop and returns
`"Max retries exceeded"` without issuing a further request. -/
def uploadLoop (resp : Nat → HttpResult) (retries : Nat) :
    List Nat → UploadResult × Nat
  | [] => (⟨false, "Max retries exceeded"⟩, 0)
  | attempt :: later =>
      match resp attempt with
      | .ok status =>
          if status = 201 then
            (⟨true, "Created"⟩, 1)
          else
            (⟨false, "Unexpected status code: " ++ toString status⟩, 1)
      | .httpError code reason body =>
          if code = 409 then
            (⟨true, "Already exists"⟩, 1)
          else if code ≥ 500 ∧ attempt < retries - 1 then
            let rest := uploadLoop resp retries later
            (rest.1, rest.2 + 1)
          else
            (⟨false, httpErrorMsg code reason body⟩, 1)
      | .exn msg =>
          if attempt < retries - 1 then
            let rest := uploadLoop resp retries later
            (rest.1, rest.2 + 1)
          else
            (⟨false, "Request error: " ++ msg⟩, 1)

/-- `upload_entity(file_path, retries)`: loads the document once (the call
to `load_json_file` before the loop), rejects falsy/unreadable data with
`"Failed to load entity data"`, otherwise runs the attempt loop.  Returns
`(result, create-requests issued, loads of the source file performed)`. -/
def upload_entity (load : Option PyJson) (resp : Nat → HttpResult)
    (retries : Nat) : UploadResult × Nat × Nat :=
  match load with
  | none => (⟨false, "Failed to load entity data"⟩, 0, 1)
  | some entity_data =>
      if entity_data.truthy then
        let r := uploadLoop resp retries (List.range retries)
        (r.1, r.2, 1)
      else
        (⟨false, "Failed to load entity data"⟩, 0, 1)

/-- The aggregate returned by `parallel_upload` (`error_details` keeps the
`(entity_id, message)` pairs in arrival order). -/
structure RunReport where
  total : Nat
  success : Nat
  already_exists : Nat
  errors : Nat
  error_details : List (String × String)
deriving DecidableEq

def emptyReport : RunReport := ⟨0, 0, 0, 0, []⟩

/-- One iteration of the result-consumption loop in `parallel_upload`:
a successful result with message `"Created"` increments the created count,
any other successful result the already-exists count, and a failure the
error count while recording its detail. -/
def aggregateStep (acc : RunReport) (c : String × UploadResult) : RunReport :=
  if c.2.success then
    if c.2.message = "Created" then
      { acc with success := acc.success + 1 }
    else
      { acc with already_exists := acc.already_exists + 1 }
  else
    { acc with errors := acc.errors + 1,
               error_details := acc.error_details ++ [(c.1, c.2.message)] }

/-- The whole result-consumption loop of `parallel_upload` over the stream
of completed task results (in arrival order), with `total` set to the
number of submitted tasks as in the script. -/
def aggregate (completions : List (String × UploadResult)) : RunReport :=
  { completions.foldl aggregateStep emptyReport with
      total := completions.length }

/-- One unit of work handed to the pool: the entity id derived from the
file name, the modelled outcome of loading the file, and the modelled
response of the remote sink on each attempt. -/
structure UploadTask where
  entity_id : String
  load : Option PyJson
  resp : Nat → HttpResult

/-- `parallel_upload(file_list, max_workers)`: every task is submitted
exactly once with the default retry budget `MAX_RETRIES` and contributes
exactly one completed result to the aggregation. -/
def parallel_upload (tasks : List UploadTask) : RunReport :=
  aggregate (tasks.map fun t =>
    (t.entity_id, (upload_entity t.load t.resp MAX_RETRIES).1))

/-- Total number of HTTP create-requests issued by a run over the tasks. -/
def totalRequests (tasks : List UploadTask) : Nat :=
  (tasks.map fun t => (upload_entity t.load t.resp MAX_RETRIES).2.1).sum

/-- Outcome of the availability probe's single `GET /version` call:
a response with a status and a body that either parses to JSON or not,
or a raised exception (network error). -/
inductive ProbeResult where
  | response (status : Nat) (body : Option PyJson) : ProbeResult
  | failure (msg : String) : ProbeResult

/-- `check_orion_availability()`: `True` only for a 200 response whose body
parses; a non-200 status returns `False`, and any raised exception
(including a JSON parse error of the body) is caught and yields `False`. -/
def check_orion_availability (probe : ProbeResult) : Bool :=
  match probe with
  | .response status body =>
      if status = 200 then
        match body with
        | some _ => true
        | none => false
      else
        false
  | .failure _ => false

/-- Result of `main()`: either an early `sys.exit` with an exit code,
or a completed run with its report; both carry the number of HTTP
create-requests issued during the run. -/
inductive MainResult where
  | exited (code : Nat) (create_requests : Nat) : MainResult
  | completed (report : RunReport) (create_requests : Nat) : MainResult
deriving DecidableEq

/-- `main()`: exits with status 1 before scheduling any task when the
availability probe fails or when no files are found; otherwise runs
`parallel_upload` over all tasks. -/
def mainRun (probe : ProbeResult) (tasks : List UploadTask) : MainResult :=
  if check_orion_availability probe then
    if tasks.isEmpty then
      .exited 1 0
    else
      .completed (parallel_upload tasks) (totalRequests tasks)
  else
    .exited 1 0

/-- The summary line `results['total'] / elapsed_time` at the end of
`main()` (line 237): Python float division raises `ZeroDivisionError` on a
zero divisor, embedded as `Except.error`; the division is not guarded in
the source. -/
def average_rate (total : Nat) (elapsed : ℚ) : Except String ℚ :=
  if elapsed = 0 then
    Except.error "ZeroDivisionError: float division by zero"
  else
    Except.ok (total / elapsed)

/-! ## Sample inputs used by witnesses and counterexamples -/

/-- A concrete truthy document value (a non-empty JSON object). -/
def sampleDoc : PyJson :=
  .obj [("id", .str "urn:ngsi-ld:Sensor:0001"), ("type", .str "Sensor")]

/-- A remote sink that answers every attempt with HTTP 503. -/
def resp503 : Nat → HttpResult :=
  fun _ => .httpError 503 "Service Unavailable" none

/-! ## Helper lemmas -/

/-- Each consumed result increments exactly one of the three tallies. -/
lemma aggregateStep_sum (acc : RunReport) (c : String × UploadResult) :
    (aggregateStep acc c).success + (aggregateStep acc c).already_exists
      + (aggregateStep acc c).errors
    = acc.success + acc.already_exists + acc.errors + 1 := by
  unfold aggregateStep
  by_cases h1 : c.2.success
  · by_cases h2 : c.2.message = "Created" <;> simp [h1, h2] <;> omega
  · simp [h1]
    omega

/-- The result-consumption fold adds exactly the stream length to the sum
of the three tallies. -/
lemma foldl_aggregate_sum (l : List (String × UploadResult)) :
    ∀ acc : RunReport,
      (l.foldl aggregateStep acc).success + (l.foldl aggregateStep acc).already_exists
        + (l.foldl aggregateStep acc).errors
      = acc.success + acc.already_exists + acc.errors + l.length := by
  induction l with
  | nil => intro acc; simp
  | cons c cs ih =>
      intro acc
      simp only [List.foldl_cons, List.length_cons]
      rw [ih (aggregateStep acc c)]
      have h := aggregateStep_sum acc c
      omega

/-- On a remaining-attempts segment `start, …, start+len-1` of a full
budget `retries = start + len` (`len ≥ 1`), a sink answering every attempt
with the same 5xx error makes the loop issue one request per remaining
attempt and end in the HTTP-error message of the final attempt. -/
lemma uploadLoop_const_server_error (code : Nat) (reason : String)
    (body : Option String) (retries : Nat) (hcode : 500 ≤ code) :
    ∀ len start : Nat, start + len = retries → 1 ≤ len →
      uploadLoop (fun _ => HttpResult.httpError code reason body) retries
          (List.range' start len)
        = (⟨false, httpErrorMsg code reason body⟩, len) := by
  intro len
  induction len with
  | zero => intro start _ h; omega
  | succ n ih =>
      intro start hsum _
      rw [List.range'_succ]
      have h409 : code ≠ 409 := by omega
      cases n with
      | zero =>
          have hno : ¬ (code ≥ 500 ∧ start < retries - 1) := by omega
          show (if code = 409 then ((⟨true, "Already exists"⟩ : UploadResult), 1)
                else if code ≥ 500 ∧ start < retries - 1 then
                  ((uploadLoop (fun _ => HttpResult.httpError code reason body) retries
                      (List.range' (start + 1) 0)).1,
                   (uploadLoop (fun _ => HttpResult.httpError code reason body) retries
                      (List.range' (start + 1) 0)).2 + 1)
                else ((⟨false, httpErrorMsg code reason body⟩ : UploadResult), 1))
              = ((⟨false, httpErrorMsg code reason body⟩ : UploadResult), 0 + 1)
          rw [if_neg h409, if_neg hno]
      | succ p =>
          have hlt : start < retries - 1 := by omega
          have hrec := ih (start + 1) (by omega) (by omega)
          show (if code = 409 then ((⟨true, "Already exists"⟩ : UploadResult), 1)
                else if code ≥ 500 ∧ start < retries - 1 then
                  ((uploadLoop (fun _ => HttpResult.httpError code reason body) retries
                      (List.range' (start + 1) (p + 1))).1,
                   (uploadLoop (fun _ => HttpResult.httpError code reason body) retries
                      (List.range' (start + 1) (p + 1))).2 + 1)
                else ((⟨false, httpErrorMsg code reason body⟩ : UploadResult), 1))
              = ((⟨false, httpErrorMsg code reason body⟩ : UploadResult), p + 1 + 1)
          rw [if_neg h409, if_pos (⟨hcode, hlt⟩ : code ≥ 500 ∧ start < retries - 1), hrec]

/-! ## Claim theorems -/

/-- C1: each task contributes exactly one outcome to the aggregation, so
for every task list of size N the final report satisfies
Created + AlreadyExists + Failed = N (and total = N); the empty task list
yields the all-zero report rather than a failure. -/
theorem parallel_upload_counts_sum :
    (∀ tasks : List UploadTask,
        (parallel_upload tasks).total = tasks.length
        ∧ (parallel_upload tasks).success + (parallel_upload tasks).already_exists
            + (parallel_upload tasks).errors = tasks.length)
    ∧ parallel_upload [] = ⟨0, 0, 0, 0, []⟩ := by
  constructor
  · intro tasks
    constructor
    · simp [parallel_upload, aggregate]
    · have h := foldl_aggregate_sum
        (tasks.map fun t => (t.entity_id, (upload_entity t.load t.resp MAX_RETRIES).1))
        emptyReport
      simp [emptyReport] at h
      simpa [parallel_upload, aggregate] using h
  · rfl

/-- C5: a task whose payload fails to load (the `open`/`json.load` call
raised) is a permanent `"Failed to load entity data"` failure: the load is
not retried (exactly one load happens) and zero create-requests are issued. -/
theorem upload_load_failure_no_request (resp : Nat → HttpResult) (retries : Nat) :
    upload_entity none resp retries
      = (⟨false, "Failed to load entity data"⟩, 0, 1) := rfl

/-- C9: a payload that parses but is falsy in Python (`{}`, `[]`, `0`,
`false`, `null`, `""`) is classified exactly like a load failure
(`"Failed to load entity data"`) and no create-request is issued. -/
theorem upload_falsy_json_load_failure :
    (∀ (v : PyJson) (resp : Nat → HttpResult) (retries : Nat),
        v.truthy = false →
          upload_entity (some v) resp retries
            = (⟨false, "Failed to load entity data"⟩, 0, 1))
    ∧ (PyJson.obj []).truthy = false ∧ (PyJson.arr []).truthy = false
    ∧ (PyJson.int 0).truthy = false ∧ (PyJson.bool false).truthy = false
    ∧ PyJson.null.truthy = false ∧ (PyJson.str "").truthy = false := by
  refine ⟨?_, rfl, rfl, by decide, rfl, rfl, by decide⟩
  intro v resp retries hv
  simp [upload_entity, hv]

/-- Witness for C9 at the concrete falsy payload `{}`. -/
theorem upload_falsy_json_load_failure_witness :
    upload_entity (some (PyJson.obj [])) (fun _ => HttpResult.ok 201) 2
      = (⟨false, "Failed to load entity data"⟩, 0, 1) :=
  upload_falsy_json_load_failure.1 (PyJson.obj []) (fun _ => HttpResult.ok 201) 2 rfl

/-- C3: HTTP 409 is terminal on the spot — a document whose requests
answer 409 ends as `"Already exists"` with `success = true` after exactly
one request, and more generally a 409 on any attempt ends the loop
immediately with that single request and no retry. -/
theorem upload_conflict_already_exists :
    (∀ (reason : String) (body : Option String) (v : PyJson) (retries : Nat),
        1 ≤ retries → v.truthy = true →
          upload_entity (some v) (fun _ => HttpResult.httpError 409 reason body) retries
            = (⟨true, "Already exists"⟩, 1, 1))
    ∧ (∀ (resp : Nat → HttpResult) (retries attempt : Nat) (later : List Nat)
          (reason : String) (body : Option String),
        resp attempt = HttpResult.httpError 409 reason body →
          uploadLoop resp retries (attempt :: later) = (⟨true, "Already exists"⟩, 1)) := by
  constructor
  · intro reason body v retries hr hv
    obtain ⟨m, rfl⟩ : ∃ m, retries = m + 1 := ⟨retries - 1, by omega⟩
    simp [upload_entity, hv, List.range_succ_eq_map, uploadLoop]
  · intro resp retries attempt later reason body h
    simp [uploadLoop, h]

/-- Witness for C3 at a concrete all-409 sink. -/
theorem upload_conflict_already_exists_witness :
    upload_entity (some sampleDoc) (fun _ => HttpResult.httpError 409 "Conflict" none) 2
      = (⟨true, "Already exists"⟩, 1, 1) :=
  upload_conflict_already_exists.1 "Conflict" none sampleDoc 2 (by decide) rfl

/-- C4: a 4xx response other than 409 on the first attempt (e.g. 400) is a
permanent failure: the task ends `Failed` right there, with exactly one
create-request issued and zero retries. -/
theorem upload_client_error_first_attempt (code : Nat) (reason : String)
    (body : Option String) (v : PyJson) (resp : Nat → HttpResult) (retries : Nat)
    (h400 : 400 ≤ code) (h500 : code < 500) (h409 : code ≠ 409) (hr : 1 ≤ retries)
    (hv : v.truthy = true) (hresp : resp 0 = HttpResult.httpError code reason body) :
    upload_entity (some v) resp retries
      = (⟨false, httpErrorMsg code reason body⟩, 1, 1) := by
  obtain ⟨m, rfl⟩ : ∃ m, retries = m + 1 := ⟨retries - 1, by omega⟩
  have hno : ¬ (500 ≤ code ∧ 0 < m) := by omega
  simp [upload_entity, hv, List.range_succ_eq_map, uploadLoop, hresp, h409, hno]

/-- Witness for C4 at a concrete HTTP 400 on the first attempt. -/
theorem upload_client_error_first_attempt_witness :
    upload_entity (some sampleDoc)
        (fun _ => HttpResult.httpError 400 "Bad Request" none) 2
      = (⟨false, httpErrorMsg 400 "Bad Request" none⟩, 1, 1) :=
  upload_client_error_first_attempt 400 "Bad Request" none sampleDoc
    (fun _ => HttpResult.httpError 400 "Bad Request" none) 2
    (by decide) (by decide) (by decide) (by decide) rfl rfl

/-- C10: a create-request completing with a status other than 201
(e.g. 200 or 204) ends the task immediately as
`Failed("Unexpected status code: <status>")`: one request, no retry;
only exactly 201 yields `Created`. -/
theorem upload_unexpected_status_no_retry (status : Nat) (v : PyJson)
    (resp : Nat → HttpResult) (retries : Nat) (hs : status ≠ 201)
    (hr : 1 ≤ retries) (hv : v.truthy = true)
    (hresp : resp 0 = HttpResult.ok status) :
    upload_entity (some v) resp retries
      = (⟨false, "Unexpected status code: " ++ toString status⟩, 1, 1) := by
  obtain ⟨m, rfl⟩ : ∃ m, retries = m + 1 := ⟨retries - 1, by omega⟩
  simp [upload_entity, hv, List.range_succ_eq_map, uploadLoop, hresp, hs]

/-- Witness for C10 at a concrete HTTP 204 completion. -/
theorem upload_unexpected_status_no_retry_witness :
    upload_entity (some sampleDoc) (fun _ => HttpResult.ok 204) 2
      = (⟨false, "Unexpected status code: 204"⟩, 1, 1) :=
  upload_unexpected_status_no_retry 204 sampleDoc (fun _ => HttpResult.ok 204) 2
    (by decide) (by decide) rfl rfl

/-- C2 counterexample: with the default budget of 2 and a sink answering
503 on every attempt, the task is indeed attempted twice and fails, but its
failure reason is the HTTP error string of the last attempt — not the
script's own retry-exhaustion reason `"Max retries exceeded"` (line 121 of
the script, unreachable here) nor anything citing retry exhaustion. -/
theorem upload_503_message_counterexample :
    (upload_entity (some sampleDoc) resp503 MAX_RETRIES).2.1 = 2
    ∧ (upload_entity (some sampleDoc) resp503 MAX_RETRIES).1.success = false
    ∧ (upload_entity (some sampleDoc) resp503 MAX_RETRIES).1.message
        = "HTTP error: 503 - Service Unavailable"
    ∧ ¬ (upload_entity (some sampleDoc) resp503 MAX_RETRIES).1.message
        = "Max retries exceeded"
    ∧ ¬ (upload_entity (some sampleDoc) resp503 MAX_RETRIES).1.message
        = "max-retries-exceeded" := by
  refine ⟨rfl, rfl, by decide, by decide, by decide⟩

/-- C2 as amended: with budget R ≥ 1 and the same 5xx error on every
attempt, exactly R create-requests are issued and the outcome is `Failed`,
but the recorded reason is the HTTP error message of the final attempt
(`"HTTP error: <code> - <reason>…"`), not a retry-exhaustion reason. -/
theorem upload_5xx_retry_exhaustion (code : Nat) (reason : String)
    (body : Option String) (v : PyJson) (retries : Nat) (hcode : 500 ≤ code)
    (hr : 1 ≤ retries) (hv : v.truthy = true) :
    upload_entity (some v) (fun _ => HttpResult.httpError code reason body) retries
      = (⟨false, httpErrorMsg code reason body⟩, retries, 1) := by
  have h := uploadLoop_const_server_error code reason body retries hcode retries 0
    (by omega) hr
  rw [← List.range_eq_range'] at h
  simp [upload_entity, hv, h]

/-- Witness for the amended C2 at a concrete all-503 sink with budget 2. -/
theorem upload_5xx_retry_exhaustion_witness :
    upload_entity (some sampleDoc)
        (fun _ => HttpResult.httpError 503 "Service Unavailable" none) 2
      = (⟨false, httpErrorMsg 503 "Service Unavailable" none⟩, 2, 1)
    ∧ httpErrorMsg 503 "Service Unavailable" none
        = "HTTP error: 503 - Service Unavailable" :=
  ⟨upload_5xx_retry_exhaustion 503 "Service Unavailable" none sampleDoc 2
      (by decide) (by decide) rfl,
   by decide⟩

/-- C8 counterexample: a task retried once (two attempts, two
create-requests) still reads its source file only once — the load happens
before the attempt loop, so loads ≠ attempts. -/
theorem load_once_per_attempt_counterexample :
    (upload_entity (some sampleDoc) resp503 MAX_RETRIES).2.1 = 2
    ∧ (upload_entity (some sampleDoc) resp503 MAX_RETRIES).2.2 = 1
    ∧ ¬ (upload_entity (some sampleDoc) resp503 MAX_RETRIES).2.2
        = (upload_entity (some sampleDoc) resp503 MAX_RETRIES).2.1 := by
  refine ⟨rfl, rfl, by decide⟩

/-- C8 as amended: every task reads its document from the source file
exactly once, before the first attempt, regardless of how many attempts it
performs. -/
theorem upload_single_load_per_task (load : Option PyJson)
    (resp : Nat → HttpResult) (retries : Nat) :
    (upload_entity load resp retries).2.2 = 1 := by
  cases load with
  | none => rfl
  | some v => by_cases hv : v.truthy <;> simp [upload_entity, hv]

/-- C6: when the availability probe reports the sink unreachable, `main`
exits with status 1 having issued zero HTTP create-requests and without
scheduling any task or producing a report. -/
theorem main_unreachable_no_requests (probe : ProbeResult)
    (tasks : List UploadTask) (h : check_orion_availability probe = false) :
    mainRun probe tasks = MainResult.exited 1 0 := by
  simp [mainRun, h]

/-- Witness for C6 at a concrete connection failure with a non-empty task
list. -/
theorem main_unreachable_no_requests_witness :
    mainRun (ProbeResult.failure "connection refused")
        [⟨"urn:ngsi-ld:Sensor:0001", some sampleDoc, fun _ => HttpResult.ok 201⟩]
      = MainResult.exited 1 0 :=
  main_unreachable_no_requests (ProbeResult.failure "connection refused")
    [⟨"urn:ngsi-ld:Sensor:0001", some sampleDoc, fun _ => HttpResult.ok 201⟩] rfl

/-- C7 counterexample: the summary's throughput division is not guarded —
at elapsed time 0 it raises `ZeroDivisionError` (embedded as an error)
instead of omitting the throughput. -/
theorem average_rate_zero_elapsed_counterexample :
    average_rate 3 0 = Except.error "ZeroDivisionError: float division by zero" := rfl

/-- C7 as amended: the derived throughput equals total divided by elapsed
seconds whenever elapsed is nonzero; the division is unguarded, so zero
elapsed time raises rather than omitting the value. -/
theorem average_rate_nonzero_elapsed (total : Nat) (elapsed : ℚ)
    (h : elapsed ≠ 0) :
    average_rate total elapsed = Except.ok (total / elapsed) := by
  simp [average_rate, h]

/-- Witness for the amended C7 at a concrete nonzero elapsed time. -/
theorem average_rate_nonzero_elapsed_witness :
    average_rate 3 2 = Except.ok ((3 : ℚ) / 2) :=
  average_rate_nonzero_elapsed 3 2 (by norm_num)
